import Mathlib

/-!
Verification of the sample-sink, measurement-start, persistence, preset and
analysis behaviour of `CholestroCalc.py` (class `ElectrochemicalApp`).

The embedding is shallow: each Python method that the claims mention is
translated into a pure Lean function over explicit state.  Floating-point
values are modelled by `ℚ`; label text by `String`/`List Char` with Python's
`str.lower` and substring operator modelled character-wise; Python dicts by
association lists in insertion order; a caught exception by an error value
that is converted to a status-bar message, exactly as the `try/except`
blocks of the source do.
-/

namespace CholestroCalc

/-- Python's `s.startswith(p)` on explicit character lists. -/
def pyStartsWith : List Char → List Char → Bool
  | _, [] => true
  | [], _ :: _ => false
  | c :: t, p :: ps => c == p && pyStartsWith t ps

/-- Python's substring operator `pat in hay` on explicit character lists:
true iff `pat` occurs contiguously in `hay` (the empty pattern always occurs). -/
def pyContains : List Char → List Char → Bool
  | [], pat => pat.isEmpty
  | c :: t, pat => pyStartsWith (c :: t) pat || pyContains t pat

/-- Python's `s.lower()` on explicit character lists. -/
def pyLower (s : List Char) : List Char := s.map Char.toLower

/-- Python's `pat in s.lower()` for string `s` and (lowercase) pattern `pat`. -/
def labelHas (s : String) (pat : String) : Bool :=
  pyContains (pyLower s.toList) pat.toList

/-- The `self.current_data = {'voltage': [], 'current': []}` dictionary in its
normal shape: two ordered sequences of readings. -/
structure TraceStore where
  voltage : List ℚ
  current : List ℚ
deriving DecidableEq, Repr

/-- A key of the `new_data` dict handed to `new_data_callback`.  The source
calls `.lower()` on it: a string key succeeds, any non-string key raises
`AttributeError` (modelled by `nonStr`). -/
inductive Label where
  | str : String → Label
  | nonStr : Label
deriving DecidableEq, Repr

/-- One iteration of the `for type, value in new_data.items()` loop of
`new_data_callback` (CholestroCalc.py lines 238-242): lowercase the label,
append to `voltage` when it contains "potential", otherwise (`elif`) append to
`current` when it contains "current", otherwise leave the store unchanged.
A non-string label raises, modelled as an `Except.error`. -/
def classifyStep (store : TraceStore) (l : Label) (v : ℚ) : Except String TraceStore :=
  match l with
  | .nonStr => .error "AttributeError: object has no attribute lower"
  | .str s =>
    if labelHas s "potential" then
      .ok { store with voltage := store.voltage ++ [v] }
    else if labelHas s "current" then
      .ok { store with current := store.current ++ [v] }
    else
      .ok store

/-- The whole `for` loop of `new_data_callback`: items are processed in
insertion order; the first exception aborts the loop (mutations already made
are kept) and is propagated to the enclosing `try`. -/
def processItems (store : TraceStore) : List (Label × ℚ) → TraceStore × Option String
  | [] => (store, none)
  | (l, v) :: rest =>
    match classifyStep store l v with
    | .ok s' => processItems s' rest
    | .error e => (store, some e)

/-- `new_data_callback` (lines 235-251): run the classification loop inside
`try`; an exception is caught and becomes the status-bar message
`"Error in data callback: ..."`; the callback itself always returns normally.
(`update_plot` and `update_data_display` mutate no data and are omitted.) -/
def new_data_callback (store : TraceStore) (new_data : List (Label × ℚ)) :
    TraceStore × Option String :=
  match processItems store new_data with
  | (s, none) => (s, none)
  | (s, some e) => (s, some ("Error in data callback: " ++ e))

/-- C1: as stated, the claim asserts that every sample whose label contains
"current" (case-insensitively) is appended to the current sequence.  It is
false: the source uses `elif`, so a label containing both "potential" and
"current" is appended to `voltage` only.  Concretely, the label
"potential current" contains "current", yet from the empty store the sample
lands in `voltage` and `current` stays empty. -/
theorem c1_counterexample :
    labelHas "potential current" "current" = true ∧
    classifyStep ⟨[], []⟩ (.str "potential current") 1 =
      .ok (⟨[1], []⟩ : TraceStore) ∧
    (⟨[1], []⟩ : TraceStore).current = [] :=
  ⟨by decide, rfl, rfl⟩

/-- C1 (amended): a sample whose label contains "potential" (case-insensitive)
is appended to `voltage` and never to `current`; a sample whose label contains
"current" but not "potential" is appended to `current` and never to `voltage`;
a sample whose label contains neither substring leaves both sequences
unchanged. -/
theorem c1_sink_classification (store : TraceStore) (s : String) (v : ℚ) :
    (labelHas s "potential" = true →
      classifyStep store (.str s) v =
        .ok { store with voltage := store.voltage ++ [v] }) ∧
    (labelHas s "potential" = false →
      labelHas s "current" = true →
      classifyStep store (.str s) v =
        .ok { store with current := store.current ++ [v] }) ∧
    (labelHas s "potential" = false →
      labelHas s "current" = false →
      classifyStep store (.str s) v = .ok store) := by
  refine ⟨fun h1 => ?_, fun h1 h2 => ?_, fun h1 h2 => ?_⟩ <;>
    simp only [classifyStep] <;> simp [h1]
  · simp [h2]
  · simp [h2]

/-- C1 witness: the three branches of `c1_sink_classification` at the concrete
labels "E_Potential", "I_current" and "time". -/
theorem c1_witness :
    classifyStep ⟨[], []⟩ (.str "E_Potential") 1 = .ok (⟨[1], []⟩ : TraceStore) ∧
    classifyStep ⟨[], []⟩ (.str "I_current") 2 = .ok (⟨[], [2]⟩ : TraceStore) ∧
    classifyStep ⟨[], []⟩ (.str "time") 3 = .ok (⟨[], []⟩ : TraceStore) :=
  ⟨(c1_sink_classification ⟨[], []⟩ "E_Potential" 1).1 (by decide),
   (c1_sink_classification ⟨[], []⟩ "I_current" 2).2.1 (by decide) (by decide),
   (c1_sink_classification ⟨[], []⟩ "time" 3).2.2 (by decide) (by decide)⟩

/-- C3: as stated, the claim asserts a label containing both "potential" and
"current" is appended to both sequences.  False: the `elif` at line 241 makes
the "potential" branch win, so the label "Current Potential" double-appends
nothing — the value goes to `voltage` only and `current` stays empty. -/
theorem c3_counterexample :
    labelHas "Current Potential" "potential" = true ∧
    labelHas "Current Potential" "current" = true ∧
    classifyStep ⟨[], []⟩ (.str "Current Potential") 2 =
      .ok (⟨[2], []⟩ : TraceStore) :=
  ⟨by decide, by decide, rfl⟩

/-- C3 (amended): a sample whose label contains both "potential" and "current"
(case-insensitive) is appended to `voltage` only; the current sequence is
unchanged (the `elif` gives the "potential" branch precedence). -/
theorem c3_both_appends_voltage_only (store : TraceStore) (s : String) (v : ℚ)
    (hp : labelHas s "potential" = true)
    (hc : labelHas s "current" = true) :
    classifyStep store (.str s) v =
      .ok { store with voltage := store.voltage ++ [v] } := by
  simp only [classifyStep]
  simp [hp]

/-- C3 witness: `c3_both_appends_voltage_only` at the label
"potentialcurrent". -/
theorem c3_witness :
    classifyStep ⟨[5], [6]⟩ (.str "potentialcurrent") 7 =
      .ok (⟨[5, 7], [6]⟩ : TraceStore) :=
  c3_both_appends_voltage_only ⟨[5], [6]⟩ "potentialcurrent" 7 (by decide) (by decide)

/-- C7: as stated, the claim asserts that after an exception on one sample of
a batch the remaining samples of that batch are still classified and appended.
False: the `try` wraps the whole `for` loop, so the exception raised by the
first (non-string) key aborts the loop and the later sample "E_potential" is
never appended — the callback returns with `voltage` still empty. -/
theorem c7_counterexample :
    new_data_callback ⟨[], []⟩ [(Label.nonStr, 1), (Label.str "E_potential", 2)] =
      (⟨[], []⟩,
        some "Error in data callback: AttributeError: object has no attribute lower") ∧
    (⟨[], []⟩ : TraceStore).voltage = [] :=
  ⟨rfl, rfl⟩

/-- C7 (amended): an exception while classifying a sample is caught at the
callback boundary and converted to the one-line status message
`"Error in data callback: ..."`; the callback returns normally, keeping every
append made before the failing item, and later invocations of the callback
are unaffected — but the items of the same batch that follow the failing one
are skipped, not appended. -/
theorem c7_batch_abort (store s' : TraceStore) (pre post : List (Label × ℚ)) (v : ℚ)
    (hpre : processItems store pre = (s', none)) :
    new_data_callback store (pre ++ (Label.nonStr, v) :: post) =
      (s', some ("Error in data callback: " ++
        "AttributeError: object has no attribute lower")) := by
  have hrun : processItems store (pre ++ (Label.nonStr, v) :: post) =
      (s', some "AttributeError: object has no attribute lower") := by
    induction pre generalizing store with
    | nil =>
      simp [processItems] at hpre ⊢
      simp [hpre, classifyStep]
    | cons item rest ih =>
      obtain ⟨l, w⟩ := item
      simp only [processItems] at hpre ⊢
      cases h : classifyStep store l w with
      | ok s'' =>
        rw [h] at hpre
        simp only [List.cons_append]
        exact ih s'' hpre
      | error e =>
        rw [h] at hpre
        simp at hpre
  simp [new_data_callback, hrun]

/-- C7 witness: `c7_batch_abort` on the batch
`[("E_potential", 1), (non-string, 2), ("I_current", 3)]` from the empty
store: the first append is kept, the item after the failure is skipped. -/
theorem c7_witness :
    new_data_callback ⟨[], []⟩
        [(Label.str "E_potential", 1), (Label.nonStr, 2), (Label.str "I_current", 3)] =
      ((⟨[1], []⟩ : TraceStore),
        some ("Error in data callback: " ++
          "AttributeError: object has no attribute lower")) :=
  c7_batch_abort ⟨[], []⟩ ⟨[1], []⟩ [(Label.str "E_potential", 1)]
    [(Label.str "I_current", 3)] 2 rfl

/-! ### Technique presets (`create_parameter_groups`, lines 193-228) -/

/-- A bounded numeric control: (minimum, maximum, default, step). -/
abbrev ParamSpec := ℚ × ℚ × ℚ × ℚ

/-- The `"DPV"` entry of the `parameters` dict literal. -/
def dpvParams : List (String × ParamSpec) :=
  [("Start Potential (V)", (-2.0, 2.0, -0.5, 0.1)),
   ("End Potential (V)", (-2.0, 2.0, 0.5, 0.1)),
   ("Step Potential (V)", (0.001, 0.1, 0.005, 0.001)),
   ("Pulse Amplitude (V)", (0.001, 0.25, 0.05, 0.001)),
   ("Pulse Width (s)", (0.001, 1.0, 0.05, 0.001)),
   ("Scan Rate (V/s)", (0.01, 1.0, 0.05, 0.01))]

/-- The `"CV"` entry of the `parameters` dict literal. -/
def cvParams : List (String × ParamSpec) :=
  [("Start Potential (V)", (-2.0, 2.0, -0.5, 0.1)),
   ("First Vertex Potential (V)", (-2.0, 2.0, 0.5, 0.1)),
   ("Second Vertex Potential (V)", (-2.0, 2.0, -0.5, 0.1)),
   ("Step Potential (V)", (0.001, 0.1, 0.01, 0.001)),
   ("Scan Rate (V/s)", (0.01, 10.0, 0.1, 0.01)),
   ("Number of Scans", (1, 10, 1, 1))]

/-- The `"SWV"` entry of the `parameters` dict literal. -/
def swvParams : List (String × ParamSpec) :=
  [("Start Potential (V)", (-2.0, 2.0, -0.5, 0.1)),
   ("End Potential (V)", (-2.0, 2.0, 0.5, 0.1)),
   ("Step Potential (V)", (0.001, 0.1, 0.004, 0.001)),
   ("Amplitude (V)", (0.001, 0.25, 0.02, 0.001)),
   ("Frequency (Hz)", (1, 1000, 25, 1))]

/-- Lookup in the three-key `parameters` dict (`self.param_widgets[technique]`):
the spec's `get_preset`.  A key other than "DPV"/"CV"/"SWV" raises `KeyError`,
modelled by `none`. -/
def get_preset (technique : String) : Option (List (String × ParamSpec)) :=
  if technique = "DPV" then some dpvParams
  else if technique = "CV" then some cvParams
  else if technique = "SWV" then some swvParams
  else none

/-! ### Method construction and `start_measurement` (lines 296-344) -/

/-- Python dict subscripting `params[k]`: `KeyError` when the key is absent. -/
def lookupKey (params : List (String × ℚ)) (k : String) : Except String ℚ :=
  match params.lookup k with
  | some v => .ok v
  | none => .error ("KeyError: " ++ k)

/-- Python's `int()` on a float: truncation toward zero. -/
def pyInt (q : ℚ) : ℤ := if 0 ≤ q then ⌊q⌋ else ⌈q⌉

/-- The fields assigned to `pspymethods.DPV()` in `start_measurement`. -/
structure DPVMethod where
  e_begin : ℚ
  e_end : ℚ
  e_step : ℚ
  pulse_height : ℚ
  pulse_width : ℚ
  scan_rate : ℚ
deriving DecidableEq, Repr

/-- The fields assigned to `pspymethods.CV()` in `start_measurement`;
`n_scans` is the one integral field (`int(params["Number of Scans"])`). -/
structure CVMethod where
  e_begin : ℚ
  e_vertex1 : ℚ
  e_vertex2 : ℚ
  e_step : ℚ
  scan_rate : ℚ
  n_scans : ℤ
deriving DecidableEq, Repr

/-- The fields assigned to `pspymethods.SWV()` in `start_measurement`. -/
structure SWVMethod where
  e_begin : ℚ
  e_end : ℚ
  e_step : ℚ
  e_amplitude : ℚ
  frequency : ℚ
deriving DecidableEq, Repr

/-- A populated measurement method, one constructor per technique branch. -/
inductive Method where
  | dpv : DPVMethod → Method
  | cv : CVMethod → Method
  | swv : SWVMethod → Method
deriving DecidableEq, Repr

/-- The parameter keys each technique branch of `start_measurement` reads. -/
def requiredKeys (technique : String) : List String :=
  if technique = "DPV" then
    ["Start Potential (V)", "End Potential (V)", "Step Potential (V)",
     "Pulse Amplitude (V)", "Pulse Width (s)", "Scan Rate (V/s)"]
  else if technique = "CV" then
    ["Start Potential (V)", "First Vertex Potential (V)", "Second Vertex Potential (V)",
     "Step Potential (V)", "Scan Rate (V/s)", "Number of Scans"]
  else if technique = "SWV" then
    ["Start Potential (V)", "End Potential (V)", "Step Potential (V)",
     "Amplitude (V)", "Frequency (Hz)"]
  else []

/-- The method-building prefix of `start_measurement` (lines 301-328), the
spec's `build_method`: each field is read from `params` by dict subscripting
(a missing key raises `KeyError`), and the CV scan count is passed through
`int(...)`.  An unknown technique raises `KeyError` already at the widget
lookup `self.param_widgets[technique]` (line 299). -/
def build_method (technique : String) (params : List (String × ℚ)) :
    Except String Method :=
  if technique = "DPV" then do
    let eb ← lookupKey params "Start Potential (V)"
    let ee ← lookupKey params "End Potential (V)"
    let es ← lookupKey params "Step Potential (V)"
    let ph ← lookupKey params "Pulse Amplitude (V)"
    let pw ← lookupKey params "Pulse Width (s)"
    let sr ← lookupKey params "Scan Rate (V/s)"
    .ok (.dpv ⟨eb, ee, es, ph, pw, sr⟩)
  else if technique = "CV" then do
    let eb ← lookupKey params "Start Potential (V)"
    let v1 ← lookupKey params "First Vertex Potential (V)"
    let v2 ← lookupKey params "Second Vertex Potential (V)"
    let es ← lookupKey params "Step Potential (V)"
    let sr ← lookupKey params "Scan Rate (V/s)"
    let ns ← lookupKey params "Number of Scans"
    .ok (.cv ⟨eb, v1, v2, es, sr, pyInt ns⟩)
  else if technique = "SWV" then do
    let eb ← lookupKey params "Start Potential (V)"
    let ee ← lookupKey params "End Potential (V)"
    let es ← lookupKey params "Step Potential (V)"
    let ea ← lookupKey params "Amplitude (V)"
    let fr ← lookupKey params "Frequency (Hz)"
    .ok (.swv ⟨eb, ee, es, ea, fr⟩)
  else .error ("KeyError: " ++ technique)

/-- The connection state of the `InstrumentManager`, as observed through
`is_connected()`. -/
inductive ConnectionState where
  | Disconnected
  | Connected
deriving DecidableEq, Repr

/-- The application state `start_measurement` touches. -/
structure AppState where
  current_data : TraceStore
  conn : ConnectionState
  status : Option String
deriving DecidableEq, Repr

/-- `start_measurement` (lines 296-344): build the method from the current
parameter values (any exception is caught and shown as
`"Error starting measurement: ..."`), then — before any connectivity check —
reset `self.current_data` to the empty dict (line 331), then test
`self.manager.is_connected()` and either start the measurement (its SDK
outcome is the `measureOk` argument) or show "No device connected". -/
def start_measurement (st : AppState) (technique : String)
    (params : List (String × ℚ)) (measureOk : Bool) : AppState :=
  match build_method technique params with
  | .error e => { st with status := some ("Error starting measurement: " ++ e) }
  | .ok _m =>
    let st' := { st with current_data := ⟨[], []⟩ }
    match st.conn with
    | .Connected =>
        if measureOk then { st' with status := some "Measurement started" }
        else { st' with status := some "Failed to start measurement" }
    | .Disconnected => { st' with status := some "No device connected" }

/-- A full CV parameter valuation (each control at its declared default). -/
def cvFull : List (String × ℚ) :=
  [("Start Potential (V)", -0.5), ("First Vertex Potential (V)", 0.5),
   ("Second Vertex Potential (V)", -0.5), ("Step Potential (V)", 0.01),
   ("Scan Rate (V/s)", 0.1), ("Number of Scans", 1)]

/-- Reducing a bind on a successful `Except` value. -/
theorem exceptBind_ok {α β ε : Type} (a : α) (f : α → Except ε β) :
    (Except.ok a >>= f) = f a := rfl

/-- Reducing a bind on a failed `Except` value. -/
theorem exceptBind_error {α β ε : Type} (e : ε) (f : α → Except ε β) :
    ((Except.error e : Except ε α) >>= f) = .error e := rfl

/-- A successful bind factors through a successful first component. -/
theorem bind_ok_left {α β ε : Type} (x : Except ε α) (f : α → Except ε β) (b : β)
    (h : (x >>= f) = .ok b) : ∃ a, x = .ok a ∧ f a = .ok b := by
  cases x with
  | ok a => exact ⟨a, rfl, h⟩
  | error e => rw [exceptBind_error] at h; exact absurd h (by simp)

/-- A successful `build_method` found every key its technique branch reads. -/
theorem build_method_ok_keys (technique : String) (params : List (String × ℚ))
    (m : Method) (hok : build_method technique params = .ok m) :
    ∀ k ∈ requiredKeys technique, ∃ q, lookupKey params k = .ok q := by
  intro k hk
  by_cases h1 : technique = "DPV"
  · subst h1
    rw [show requiredKeys "DPV" = ["Start Potential (V)", "End Potential (V)",
      "Step Potential (V)", "Pulse Amplitude (V)", "Pulse Width (s)",
      "Scan Rate (V/s)"] from rfl] at hk
    rw [build_method, if_pos rfl] at hok
    obtain ⟨q1, hq1, hok⟩ := bind_ok_left _ _ _ hok
    obtain ⟨q2, hq2, hok⟩ := bind_ok_left _ _ _ hok
    obtain ⟨q3, hq3, hok⟩ := bind_ok_left _ _ _ hok
    obtain ⟨q4, hq4, hok⟩ := bind_ok_left _ _ _ hok
    obtain ⟨q5, hq5, hok⟩ := bind_ok_left _ _ _ hok
    obtain ⟨q6, hq6, hok⟩ := bind_ok_left _ _ _ hok
    simp only [List.mem_cons, List.not_mem_nil, or_false] at hk
    rcases hk with rfl | rfl | rfl | rfl | rfl | rfl
    exacts [⟨q1, hq1⟩, ⟨q2, hq2⟩, ⟨q3, hq3⟩, ⟨q4, hq4⟩, ⟨q5, hq5⟩, ⟨q6, hq6⟩]
  · by_cases h2 : technique = "CV"
    · subst h2
      rw [show requiredKeys "CV" = ["Start Potential (V)", "First Vertex Potential (V)",
        "Second Vertex Potential (V)", "Step Potential (V)", "Scan Rate (V/s)",
        "Number of Scans"] from rfl] at hk
      rw [build_method, if_neg (by decide), if_pos rfl] at hok
      obtain ⟨q1, hq1, hok⟩ := bind_ok_left _ _ _ hok
      obtain ⟨q2, hq2, hok⟩ := bind_ok_left _ _ _ hok
      obtain ⟨q3, hq3, hok⟩ := bind_ok_left _ _ _ hok
      obtain ⟨q4, hq4, hok⟩ := bind_ok_left _ _ _ hok
      obtain ⟨q5, hq5, hok⟩ := bind_ok_left _ _ _ hok
      obtain ⟨q6, hq6, hok⟩ := bind_ok_left _ _ _ hok
      simp only [List.mem_cons, List.not_mem_nil, or_false] at hk
      rcases hk with rfl | rfl | rfl | rfl | rfl | rfl
      exacts [⟨q1, hq1⟩, ⟨q2, hq2⟩, ⟨q3, hq3⟩, ⟨q4, hq4⟩, ⟨q5, hq5⟩, ⟨q6, hq6⟩]
    · by_cases h3 : technique = "SWV"
      · subst h3
        rw [show requiredKeys "SWV" = ["Start Potential (V)", "End Potential (V)",
          "Step Potential (V)", "Amplitude (V)", "Frequency (Hz)"] from rfl] at hk
        rw [build_method, if_neg (by decide), if_neg (by decide), if_pos rfl] at hok
        obtain ⟨q1, hq1, hok⟩ := bind_ok_left _ _ _ hok
        obtain ⟨q2, hq2, hok⟩ := bind_ok_left _ _ _ hok
        obtain ⟨q3, hq3, hok⟩ := bind_ok_left _ _ _ hok
        obtain ⟨q4, hq4, hok⟩ := bind_ok_left _ _ _ hok
        obtain ⟨q5, hq5, hok⟩ := bind_ok_left _ _ _ hok
        simp only [List.mem_cons, List.not_mem_nil, or_false] at hk
        rcases hk with rfl | rfl | rfl | rfl | rfl
        exacts [⟨q1, hq1⟩, ⟨q2, hq2⟩, ⟨q3, hq3⟩, ⟨q4, hq4⟩, ⟨q5, hq5⟩]
      · rw [requiredKeys, if_neg h1, if_neg h2, if_neg h3] at hk
        exact absurd hk (List.not_mem_nil k)

/-- C2: as stated, the claim asserts the Trace Store is untouched by a
`start_measurement` call made while Disconnected.  False: line 331 resets
`self.current_data` to empty dict *before* the `is_connected()` check at
line 334, so the failed call erases the previous trace.  Concretely, from a
disconnected state holding the trace `([3], [4])`, the call reports
"No device connected" yet the store has become `([], [])`. -/
theorem c2_counterexample :
    (start_measurement ⟨⟨[3], [4]⟩, .Disconnected, none⟩ "CV" cvFull true).status =
      some "No device connected" ∧
    (start_measurement ⟨⟨[3], [4]⟩, .Disconnected, none⟩ "CV" cvFull true).current_data =
      (⟨[], []⟩ : TraceStore) ∧
    (⟨[3], [4]⟩ : TraceStore) ≠ (⟨[], []⟩ : TraceStore) :=
  ⟨rfl, rfl, by decide⟩

/-- C2 (amended): a measurement start requested while Disconnected fails with
the NotConnected outcome ("No device connected"), reported as a status
message and not re-raised — but the Trace Store is not untouched: it is reset
to empty before the connectivity check. -/
theorem c2_disconnected_reports_not_connected (st : AppState) (technique : String)
    (params : List (String × ℚ)) (measureOk : Bool) (m : Method)
    (hconn : st.conn = .Disconnected)
    (hok : build_method technique params = .ok m) :
    start_measurement st technique params measureOk =
      { st with current_data := ⟨[], []⟩, status := some "No device connected" } := by
  simp only [start_measurement, hok, hconn]

/-- C2 witness: `c2_disconnected_reports_not_connected` at a concrete
disconnected state holding a non-empty trace, with the full CV parameter
set. -/
theorem c2_witness :
    start_measurement ⟨⟨[3], [4]⟩, .Disconnected, none⟩ "CV" cvFull true =
      { (⟨⟨[3], [4]⟩, .Disconnected, none⟩ : AppState) with
          current_data := (⟨[], []⟩ : TraceStore),
          status := some "No device connected" } :=
  c2_disconnected_reports_not_connected ⟨⟨[3], [4]⟩, .Disconnected, none⟩ "CV"
    cvFull true (.cv ⟨-0.5, 0.5, -0.5, 0.01, 0.1, pyInt 1⟩) rfl rfl

/-- C8: `get_preset "CV"` is exactly the six declared CV controls with their
(min, max, default, step) tuples, and any identifier other than
"DPV"/"CV"/"SWV" fails the dict lookup (the UnknownTechnique outcome,
a `KeyError` in the source). -/
theorem c8_preset_lookup :
    get_preset "CV" =
      some [("Start Potential (V)", (-2.0, 2.0, -0.5, 0.1)),
            ("First Vertex Potential (V)", (-2.0, 2.0, 0.5, 0.1)),
            ("Second Vertex Potential (V)", (-2.0, 2.0, -0.5, 0.1)),
            ("Step Potential (V)", (0.001, 0.1, 0.01, 0.001)),
            ("Scan Rate (V/s)", (0.01, 10.0, 0.1, 0.01)),
            ("Number of Scans", (1, 10, 1, 1))] ∧
    ∀ technique : String,
      technique ≠ "DPV" → technique ≠ "CV" → technique ≠ "SWV" →
      get_preset technique = none := by
  refine ⟨rfl, fun t h1 h2 h3 => ?_⟩
  simp [get_preset, h1, h2, h3]

/-- C8 witness: the unknown identifier "XYZ" fails the preset lookup, by
`c8_preset_lookup`. -/
theorem c8_witness : get_preset "XYZ" = none :=
  c8_preset_lookup.2 "XYZ" (by decide) (by decide) (by decide)

/-- C9: the one integral method field, the CV scan count, is obtained from
the floating-point control value by `int(...)`, i.e. truncation toward zero
(`pyInt`); and `build_method` cannot succeed when a required parameter key is
absent from the supplied values — the dict subscript raises `KeyError`, the
MissingParameter outcome. -/
theorem c9_build_method :
    (∀ (params : List (String × ℚ)) (m : CVMethod) (q : ℚ),
      build_method "CV" params = .ok (.cv m) →
      lookupKey params "Number of Scans" = .ok q →
      m.n_scans = pyInt q) ∧
    (∀ (technique : String) (params : List (String × ℚ)) (k : String),
      k ∈ requiredKeys technique → params.lookup k = none →
      ∃ e, build_method technique params = .error e) := by
  constructor
  · intro params m q hok hq
    rw [build_method, if_neg (by decide), if_pos rfl] at hok
    obtain ⟨q1, hq1, hok⟩ := bind_ok_left _ _ _ hok
    obtain ⟨q2, hq2, hok⟩ := bind_ok_left _ _ _ hok
    obtain ⟨q3, hq3, hok⟩ := bind_ok_left _ _ _ hok
    obtain ⟨q4, hq4, hok⟩ := bind_ok_left _ _ _ hok
    obtain ⟨q5, hq5, hok⟩ := bind_ok_left _ _ _ hok
    obtain ⟨q6, hq6, hok⟩ := bind_ok_left _ _ _ hok
    rw [hq6] at hq
    cases hq
    simp only [Except.ok.injEq, Method.cv.injEq] at hok
    rw [← hok]
  · intro technique params k hk habs
    cases hb : build_method technique params with
    | error e => exact ⟨e, rfl⟩
    | ok m =>
      obtain ⟨q, hq⟩ := build_method_ok_keys technique params m hb k hk
      rw [lookupKey, habs] at hq
      exact absurd hq (by simp)

/-- C9 witness: `c9_build_method` at a CV parameter set whose scan-count
control reads 2.7 (built method carries `int(2.7) = 2`), and at the same set
with the "Number of Scans" key removed (the build fails). -/
theorem c9_witness :
    (CVMethod.mk (-0.5) 0.5 (-0.5) 0.01 0.1 (pyInt 2.7)).n_scans = pyInt 2.7 ∧
    pyInt 2.7 = 2 ∧
    ∃ e, build_method "CV"
        [("Start Potential (V)", -0.5), ("First Vertex Potential (V)", 0.5),
         ("Second Vertex Potential (V)", -0.5), ("Step Potential (V)", 0.01),
         ("Scan Rate (V/s)", 0.1)] = .error e :=
  ⟨c9_build_method.1
      [("Start Potential (V)", -0.5), ("First Vertex Potential (V)", 0.5),
       ("Second Vertex Potential (V)", -0.5), ("Step Potential (V)", 0.01),
       ("Scan Rate (V/s)", 0.1), ("Number of Scans", 2.7)]
      ⟨-0.5, 0.5, -0.5, 0.01, 0.1, pyInt 2.7⟩ 2.7 (by rfl) (by rfl),
   by norm_num [pyInt],
   c9_build_method.2 "CV"
      [("Start Potential (V)", -0.5), ("First Vertex Potential (V)", 0.5),
       ("Second Vertex Potential (V)", -0.5), ("Step Potential (V)", 0.01),
       ("Scan Rate (V/s)", 0.1)]
      "Number of Scans" (by decide) (by rfl)⟩

/-! ### Persistence (`save_data` lines 381-392, `open_data` lines 396-407) -/

/-- The tabular file written by `df.to_csv(filename, index=False)` and read
back by `pd.read_csv`: a header row naming the columns and the data rows,
values abstracted at the serialized numeric precision. -/
structure CSVFile where
  header : List String
  rows : List (List ℚ)
deriving DecidableEq, Repr

/-- `save_data`'s data path: `pd.DataFrame(self.current_data)` raises
`ValueError` when the two lists differ in length; otherwise
`df.to_csv(filename, index=False)` writes the header "voltage,current" and
one row per aligned pair.  The raised error is caught and shown as
`"Error saving data: ..."`. -/
def save_data (t : TraceStore) : Except String CSVFile :=
  if t.voltage.length = t.current.length then
    .ok ⟨["voltage", "current"], (t.voltage.zip t.current).map fun p => [p.1, p.2]⟩
  else .error "ValueError: All arrays must be of the same length"

/-- Column `i` of the data rows (as `pd.read_csv` materialises a column). -/
def colValues (rows : List (List ℚ)) (i : Nat) : List ℚ :=
  rows.map fun r => r.getD i 0

/-- The columns of a parsed file, leftmost first. -/
def read_cols (rows : List (List ℚ)) : List String → Nat → List (String × List ℚ)
  | [], _ => []
  | n :: rest, i => (n, colValues rows i) :: read_cols rows rest (i + 1)

/-- `pd.read_csv(filename)` followed by `df.to_dict('list')`: a mapping from
each column name the file happens to contain to that column's values.  No
check that "voltage" or "current" are among them. -/
def read_csv (f : CSVFile) : List (String × List ℚ) :=
  read_cols f.rows f.header 0

/-- The well-shaped `current_data` dict viewed as the mapping
`{'voltage': ..., 'current': ...}`. -/
def TraceStore.toDict (t : TraceStore) : List (String × List ℚ) :=
  [("voltage", t.voltage), ("current", t.current)]

/-- The state `open_data` touches: the `current_data` dict (of whatever
shape) and the status bar. -/
structure LoadState where
  current_data : List (String × List ℚ)
  status : Option String
deriving DecidableEq, Repr

/-- `open_data` (lines 396-407): `self.current_data = df.to_dict('list')`
replaces the dict wholesale with the file's columns; the subsequent
`update_plot`/`update_data_display` calls catch their own exceptions, so the
function always ends with the "Data loaded" status message. -/
def open_data (st : LoadState) (f : CSVFile) : LoadState :=
  { st with current_data := read_csv f, status := some "Data loaded" }

/-- Both columns read back from the rows that `save_data` zipped. -/
theorem read_zipped_cols (v c : List ℚ) (h : v.length = c.length) :
    colValues ((v.zip c).map fun p => [p.1, p.2]) 0 = v ∧
    colValues ((v.zip c).map fun p => [p.1, p.2]) 1 = c := by
  induction v generalizing c with
  | nil =>
    cases c with
    | nil => simp [colValues]
    | cons b u => simp at h
  | cons a t ih =>
    cases c with
    | nil => simp at h
    | cons b u =>
      have hh : t.length = u.length := by simpa using h
      obtain ⟨h0, h1⟩ := ih u hh
      simp_all [colValues]

/-- A key absent from the header is absent from the parsed mapping. -/
theorem lookup_read_cols_none (rows : List (List ℚ)) (names : List String)
    (i : Nat) (k : String) (hk : k ∉ names) :
    (read_cols rows names i).lookup k = none := by
  induction names generalizing i with
  | nil => rfl
  | cons n rest ih =>
    have hne : k ≠ n := fun he => hk (he ▸ List.mem_cons_self n rest)
    have hrest : k ∉ rest := fun he => hk (List.mem_cons_of_mem n he)
    simp only [read_cols, List.lookup]
    rw [show (k == n) = false from beq_eq_false_iff_ne.mpr hne]
    exact ih (i + 1) hrest

/-- C4: for a trace whose two sequences have equal length, saving succeeds
and loading the saved file reproduces exactly the mapping
`{'voltage': ..., 'current': ...}` (values at the serialized precision). -/
theorem c4_round_trip (t : TraceStore) (h : t.voltage.length = t.current.length) :
    ∃ f, save_data t = .ok f ∧ read_csv f = t.toDict := by
  refine ⟨⟨["voltage", "current"], (t.voltage.zip t.current).map fun p => [p.1, p.2]⟩,
    by simp [save_data, h], ?_⟩
  obtain ⟨h0, h1⟩ := read_zipped_cols t.voltage t.current h
  simp [read_csv, read_cols, TraceStore.toDict, h0, h1]

/-- C4 witness: `c4_round_trip` on the concrete trace `([1, 2], [3, 4])`. -/
theorem c4_witness :
    (⟨[1, 2], [3, 4]⟩ : TraceStore).voltage.length =
      (⟨[1, 2], [3, 4]⟩ : TraceStore).current.length ∧
    ∃ f, save_data ⟨[1, 2], [3, 4]⟩ = .ok f ∧
      read_csv f = TraceStore.toDict ⟨[1, 2], [3, 4]⟩ :=
  ⟨rfl, c4_round_trip ⟨[1, 2], [3, 4]⟩ rfl⟩

/-- C5: as stated, the claim asserts that saving succeeds for every trace,
truncating unequal-length sequences to the shorter length.  False:
`pd.DataFrame` on unequal-length lists raises `ValueError`, so saving the
trace `([1], [])` produces no file at all. -/
theorem c5_counterexample :
    save_data ⟨[1], []⟩ = .error "ValueError: All arrays must be of the same length" :=
  rfl

/-- C5 (amended): saving succeeds exactly for traces whose two sequences have
equal length, writing a two-column tabular file whose header names the two
fields; on unequal lengths the DataFrame construction raises `ValueError`
(caught and shown as a status message) and nothing is written — there is no
truncation to the shorter length.  (Failure on an unwritable path is the I/O
backend's, outside this model.) -/
theorem c5_save_shape (t : TraceStore) :
    (t.voltage.length = t.current.length →
      save_data t =
        .ok ⟨["voltage", "current"], (t.voltage.zip t.current).map fun p => [p.1, p.2]⟩) ∧
    (t.voltage.length ≠ t.current.length →
      save_data t = .error "ValueError: All arrays must be of the same length") := by
  unfold save_data
  exact ⟨fun h => by simp [h], fun h => by simp [h]⟩

/-- C5 witness: `c5_save_shape` on the equal-length trace `([1], [2])` and on
the unequal-length trace `([1, 2], [3])`. -/
theorem c5_witness :
    save_data ⟨[1], [2]⟩ = .ok ⟨["voltage", "current"], [[1, 2]]⟩ ∧
    save_data ⟨[1, 2], [3]⟩ = .error "ValueError: All arrays must be of the same length" :=
  ⟨(c5_save_shape ⟨[1], [2]⟩).1 rfl, (c5_save_shape ⟨[1, 2], [3]⟩).2 (by decide)⟩

/-- C6: as stated, the claim asserts that loading a file without the expected
columns fails with a FormatError and leaves the Trace Store's shape alone.
False: `open_data` performs no column check — loading a one-column file
replaces `current_data` by a single-key mapping with no "voltage" entry, and
the status reports success. -/
theorem c6_counterexample :
    (open_data ⟨[("voltage", [9]), ("current", [9])], none⟩
        ⟨["a"], [[1], [2]]⟩).current_data = [("a", [1, 2])] ∧
    (open_data ⟨[("voltage", [9]), ("current", [9])], none⟩
        ⟨["a"], [[1], [2]]⟩).status = some "Data loaded" ∧
    List.lookup "voltage" [("a", ([1, 2] : List ℚ))] = none :=
  ⟨rfl, rfl, rfl⟩

/-- C6 (amended): loading never fails on missing columns: `current_data` is
replaced wholesale by whatever column mapping the file yields and the load
reports success; when "voltage" is not among the file's columns the resulting
mapping has no "voltage" entry at all (the shape change the original claim
rules out). -/
theorem c6_load_replaces (st : LoadState) (f : CSVFile) :
    (open_data st f).current_data = read_csv f ∧
    (open_data st f).status = some "Data loaded" ∧
    ("voltage" ∉ f.header → (read_csv f).lookup "voltage" = none) :=
  ⟨rfl, rfl, fun hk => lookup_read_cols_none f.rows f.header 0 "voltage" hk⟩

/-- C6 witness: `c6_load_replaces` on a two-row file with the single column
"a". -/
theorem c6_witness :
    (open_data ⟨[], none⟩ ⟨["a"], [[1], [2]]⟩).current_data =
      read_csv ⟨["a"], [[1], [2]]⟩ ∧
    (open_data ⟨[], none⟩ ⟨["a"], [[1], [2]]⟩).status = some "Data loaded" ∧
    (read_csv ⟨["a"], [[1], [2]]⟩).lookup "voltage" = none :=
  ⟨(c6_load_replaces ⟨[], none⟩ ⟨["a"], [[1], [2]]⟩).1,
   (c6_load_replaces ⟨[], none⟩ ⟨["a"], [[1], [2]]⟩).2.1,
   (c6_load_replaces ⟨[], none⟩ ⟨["a"], [[1], [2]]⟩).2.2 (by decide)⟩

/-! ### Analysis (`analyze_data`, lines 435-459) -/

/-- `np.abs` on one reading. -/
def npAbs (q : ℚ) : ℚ := if q < 0 then -q else q

/-- `np.max(np.abs(arr))` for a non-empty array (`0` on the empty array,
which `analyze_data` never reaches thanks to its emptiness guard). -/
def npAbsMax : List ℚ → ℚ
  | [] => 0
  | [x] => npAbs x
  | x :: y :: t => max (npAbs x) (npAbsMax (y :: t))

/-- `np.argmax(np.abs(arr))`: the first index attaining the maximum absolute
value. -/
def npArgmaxAbs (l : List ℚ) : Nat :=
  l.findIdx fun x => decide (npAbs x = npAbsMax l)

/-- One appended "Analysis Results" block: peak current, peak voltage and the
point count (the formatted text abstracted to its numeric content). -/
structure ResultBlock where
  peakCurrent : ℚ
  peakVoltage : ℚ
  nPoints : Nat
deriving DecidableEq, Repr

/-- The state `analyze_data` touches. -/
structure AnalyzeState where
  voltage : List ℚ
  current : List ℚ
  results : List ResultBlock
  status : Option String
deriving DecidableEq, Repr

/-- `analyze_data` (lines 435-459): an empty voltage or current list reports
"No data to analyze" and returns; otherwise the peak current is the maximum
absolute current and the peak voltage is `voltage_array[np.argmax(...)]` —
an index beyond the voltage array raises `IndexError`, caught by the
enclosing `try` and shown as `"Analysis error: ..."`, appending nothing; on
success exactly one results block is appended and the status is untouched. -/
def analyze_data (st : AnalyzeState) : AnalyzeState :=
  if st.voltage.isEmpty || st.current.isEmpty then
    { st with status := some "No data to analyze" }
  else
    match st.voltage.get? (npArgmaxAbs st.current) with
    | none => { st with status := some "Analysis error: index out of range" }
    | some pv =>
      { st with results :=
          st.results ++ [⟨npAbsMax st.current, pv, st.current.length⟩] }

/-- `npAbsMax` bounds every absolute value of the list. -/
theorem npAbsMax_is_bound (l : List ℚ) : ∀ x ∈ l, npAbs x ≤ npAbsMax l := by
  induction l with
  | nil => simp
  | cons a t ih =>
    intro x hx
    cases t with
    | nil =>
      rw [List.mem_singleton] at hx
      subst hx
      exact le_of_eq rfl
    | cons b u =>
      rcases List.mem_cons.mp hx with rfl | hx'
      · exact le_max_left _ _
      · exact le_trans (ih x hx') (le_max_right _ _)

/-- `npAbsMax` is attained on a non-empty list. -/
theorem npAbsMax_attained (l : List ℚ) (h : l ≠ []) :
    ∃ x ∈ l, npAbs x = npAbsMax l := by
  induction l with
  | nil => exact absurd rfl h
  | cons a t ih =>
    cases t with
    | nil => exact ⟨a, List.mem_singleton_self a, rfl⟩
    | cons b u =>
      obtain ⟨x, hx, hmax⟩ := ih (by simp)
      rcases le_total (npAbs a) (npAbsMax (b :: u)) with hcmp | hcmp
      · exact ⟨x, List.mem_cons_of_mem a hx, by
          rw [show npAbsMax (a :: b :: u) = max (npAbs a) (npAbsMax (b :: u)) from rfl,
            max_eq_right hcmp, hmax]⟩
      · exact ⟨a, List.mem_cons_self a (b :: u), by
          rw [show npAbsMax (a :: b :: u) = max (npAbs a) (npAbsMax (b :: u)) from rfl,
            max_eq_left hcmp]⟩

/-- `findIdx` lands on an element satisfying the predicate whenever one
exists. -/
theorem findIdx_spec {α : Type} (p : α → Bool) (l : List α)
    (hex : ∃ x ∈ l, p x = true) :
    ∃ c, l.get? (l.findIdx p) = some c ∧ p c = true := by
  induction l with
  | nil => simp at hex
  | cons a t ih =>
    by_cases hpa : p a = true
    · exact ⟨a, by simp [List.findIdx_cons, hpa], hpa⟩
    · obtain ⟨x, hx, hpx⟩ := hex
      rcases List.mem_cons.mp hx with rfl | hx'
      · exact absurd hpx hpa
      obtain ⟨c, hc, hpc⟩ := ih ⟨x, hx', hpx⟩
      refine ⟨c, ?_, hpc⟩
      rw [List.findIdx_cons]
      simp only [hpa, cond_false]
      simpa using hc

/-- C10: with either sequence empty, `analyze_data` reports
"No data to analyze" and changes nothing else; with both non-empty it appends
exactly one results block whose peak current is the maximum absolute current
value and whose peak voltage is the voltage at the argmax index, provided
the voltage sequence reaches that index; when it does not, the out-of-range
lookup fails, the error becomes a status message, and no block is appended.
The last conjunct checks the modelled `np.max`/`np.argmax` against their
specification: the peak is an upper bound of the absolute values and is
attained at the argmax index of the current sequence. -/
theorem c10_analyze (st : AnalyzeState) :
    ((st.voltage = [] ∨ st.current = []) →
      analyze_data st = { st with status := some "No data to analyze" }) ∧
    (st.voltage ≠ [] → st.current ≠ [] →
      ∀ pv, st.voltage.get? (npArgmaxAbs st.current) = some pv →
      analyze_data st = { st with results :=
        st.results ++ [⟨npAbsMax st.current, pv, st.current.length⟩] }) ∧
    (st.voltage ≠ [] → st.current ≠ [] →
      st.voltage.get? (npArgmaxAbs st.current) = none →
      analyze_data st = { st with status := some "Analysis error: index out of range" }) ∧
    (st.current ≠ [] →
      (∀ x ∈ st.current, npAbs x ≤ npAbsMax st.current) ∧
      ∃ c, st.current.get? (npArgmaxAbs st.current) = some c ∧
        npAbs c = npAbsMax st.current) := by
  refine ⟨fun h => ?_, fun h1 h2 pv hpv => ?_, fun h1 h2 hnone => ?_, fun h2 => ?_⟩
  · rcases h with h | h <;> simp [analyze_data, h]
  · rw [List.get?_eq_getElem?] at hpv
    simp [analyze_data, List.isEmpty_iff, h1, h2, hpv]
  · rw [List.get?_eq_getElem?] at hnone
    simp [analyze_data, List.isEmpty_iff, h1, h2, hnone]
  · refine ⟨npAbsMax_is_bound st.current, ?_⟩
    obtain ⟨x, hx, hmax⟩ := npAbsMax_attained st.current h2
    obtain ⟨c, hc, hpc⟩ := findIdx_spec (fun x => decide (npAbs x = npAbsMax st.current))
      st.current ⟨x, hx, by simp [hmax]⟩
    exact ⟨c, hc, of_decide_eq_true hpc⟩

/-- C10 witness: the three behaviours of `c10_analyze` at concrete states —
an empty voltage list, matched data `([1/2, 1], [3, -5])` (argmax 1, peak 5,
peak voltage 1), and a too-short voltage list `([1], [3, -5])` — plus the
max/argmax characterisation on `[3, -5]`. -/
theorem c10_witness :
    analyze_data ⟨[], [1], [], none⟩ =
      { (⟨[], [1], [], none⟩ : AnalyzeState) with status := some "No data to analyze" } ∧
    analyze_data ⟨[1/2, 1], [3, -5], [], none⟩ =
      { (⟨[1/2, 1], [3, -5], [], none⟩ : AnalyzeState) with
          results := [] ++ [⟨npAbsMax [3, -5], 1, 2⟩] } ∧
    analyze_data ⟨[1], [3, -5], [], none⟩ =
      { (⟨[1], [3, -5], [], none⟩ : AnalyzeState) with
          status := some "Analysis error: index out of range" } ∧
    ((∀ x ∈ ([3, -5] : List ℚ), npAbs x ≤ npAbsMax [3, -5]) ∧
      ∃ c, ([3, -5] : List ℚ).get? (npArgmaxAbs [3, -5]) = some c ∧
        npAbs c = npAbsMax [3, -5]) :=
  ⟨(c10_analyze ⟨[], [1], [], none⟩).1 (Or.inl rfl),
   (c10_analyze ⟨[1/2, 1], [3, -5], [], none⟩).2.1 (by decide) (by decide) 1 (by decide),
   (c10_analyze ⟨[1], [3, -5], [], none⟩).2.2.1 (by decide) (by decide) (by decide),
   (c10_analyze ⟨[1], [3, -5], [], none⟩).2.2.2 (by decide)⟩

end CholestroCalc
